import Mathlib

/- Verification development for the complaint-escalation prediction system
   (training notebook, Part 1, and the Flask scoring service app.py, Part 2).
   Pure Python / pandas / numpy logic is translated directly into executable
   Lean definitions; external fitted libraries (the NLTK lemmatizer and
   stopword list, TextBlob polarity, gensim keyed vectors, the pickled
   classifiers) enter as explicit function- or table-valued parameters. -/

/-- JSON-level value of a request field or a raw table cell. -/
inductive JVal where
| str (s : String)
| num (q : Rat)
| null
deriving DecidableEq

/-- Python str(x), as .astype(str) applies it to a column cell. -/
def JVal.pyStr : JVal → String
| .str s => s
| .num q => toString q
| .null => "None"

/-- Whether the value is a Python string. -/
def JVal.isStr : JVal → Bool
| .str _ => true
| _ => false

/-- Numeric reading of a value, as np.array needs for a numeric cell; a
    non-numeric value in a numeric slot makes the later model.predict call
    fail. -/
def JVal.toNum : JVal → Option Rat
| .num q => some q
| _ => none

abbrev RVec := List Rat
abbrev RMat := List (List Rat)
abbrev BLabels := List Int

/-- Decidable equality of computation results, for evaluating the pipelines
    on concrete inputs. -/
instance {ε α : Type} [DecidableEq ε] [DecidableEq α] : DecidableEq (Except ε α) := fun a b =>
  match a, b with
  | .error e, .error f =>
    if h : e = f then .isTrue (congrArg Except.error h)
    else .isFalse (fun hh => h (Except.error.inj hh))
  | .ok x, .ok y =>
    if h : x = y then .isTrue (congrArg Except.ok h)
    else .isFalse (fun hh => h (Except.ok.inj hh))
  | .error _, .ok _ => .isFalse (fun hh => Except.noConfusion hh)
  | .ok _, .error _ => .isFalse (fun hh => Except.noConfusion hh)

/-- External NLP resources shared by both pipelines: the NLTK WordNet
    lemmatizer, the NLTK English stopword list and TextBlob polarity. -/
structure NlpEnv where
  lemmatize : String → String
  stopWords : List String
  sentimentOf : String → Rat

/-- Membership in Python string.punctuation, i.e. the ASCII ranges
    33-47, 58-64, 91-96 and 123-126. -/
def isPunct (c : Char) : Bool :=
  let n := c.toNat
  (33 ≤ n && n ≤ 47) || (58 ≤ n && n ≤ 64) || (91 ≤ n && n ≤ 96) || (123 ≤ n && n ≤ 126)

/-- Python text.split() with no separator: split on whitespace and drop
    empty pieces. -/
def pySplit (s : String) : List String :=
  (s.split Char.isWhitespace).filter (fun w => w != "")

/-- Body of clean_text (notebook lines 80-87, app.py lines 257-263):
    lowercase, strip punctuation, strip digits, split, drop stopwords,
    lemmatize, rejoin.  text.lower() raises AttributeError when the argument
    is not a string, which the body propagates. -/
def cleanTextBody (env : NlpEnv) (v : JVal) : Except String String :=
  match v with
  | .str text =>
    let t1 := text.toLower
    let t2 := String.mk (t1.toList.filter (fun c => !(isPunct c)))
    let t3 := String.mk (t2.toList.filter (fun c => !(c.isDigit)))
    let ws := (pySplit t3).filter (fun w => !(env.stopWords.contains w))
    .ok (String.intercalate " " (ws.map env.lemmatize))
  | _ => .error "AttributeError"

/-- The cleaned token string of a plain string input. -/
def clean_text_core (env : NlpEnv) (s : String) : String :=
  match cleanTextBody env (JVal.str s) with
  | .ok t => t
  | .error _ => ""

/-- Training clean_text (notebook lines 80-90): the body inside try/except,
    so every failure becomes the empty string. -/
def clean_text (env : NlpEnv) (v : JVal) : String :=
  match cleanTextBody env v with
  | .ok t => t
  | .error _ => ""

/-- Serving clean_text (app.py lines 257-263): the same body without a
    try/except, so an error propagates to the caller. -/
def clean_text_serve (env : NlpEnv) (v : JVal) : Except String String :=
  cleanTextBody env v

/-- Fitted Word2Vec keyed vectors: token to dense vector.  Training line 106
    fixes vector_size = 100 for every stored vector. -/
structure W2VModel where
  wv : List (String × RVec)

/-- Gensim membership/lookup, word in w2v_model.wv and w2v_model.wv[word]. -/
def wvLookup (m : W2VModel) (w : String) : Option RVec :=
  (m.wv.find? (fun p => p.1 == w)).map (fun p => p.2)

/-- Elementwise sum of equal-width vectors, the sum inside
    np.mean(vectors, axis=0). -/
def npSumAxis0 : List RVec → RVec
| [] => []
| [v] => v
| v :: w :: ws => List.zipWith (fun x y => x + y) v (npSumAxis0 (w :: ws))

/-- np.mean(vectors, axis=0): the elementwise arithmetic mean. -/
def npMeanAxis0 (vs : List RVec) : RVec :=
  (npSumAxis0 vs).map (fun x => x / (vs.length : Rat))

/-- get_w2v_vector (notebook lines 108-111, identically app.py lines
    269-272): average the table vectors of in-vocabulary tokens, skipping
    out-of-vocabulary tokens, and np.zeros(100) when no token is found. -/
def get_w2v_vector (m : W2VModel) (text : String) : RVec :=
  let vectors := (pySplit text).filterMap (wvLookup m)
  if vectors.isEmpty then List.replicate 100 0 else npMeanAxis0 vectors

/-- Insertion of one element into a sorted list, for the sorts below. -/
def insertLe {α : Type} (le : α → α → Bool) (x : α) : List α → List α
| [] => [x]
| y :: ys => if le x y then x :: y :: ys else y :: insertLe le x ys

/-- Insertion sort, modelling the sorted outputs of np.unique and the
    order statistics behind pandas median. -/
def sortLe {α : Type} (le : α → α → Bool) : List α → List α
| [] => []
| x :: xs => insertLe le x (sortLe le xs)

/-- Lexicographic code-point order on character lists, the order np.unique
    sorts strings by. -/
def charsLe : List Char → List Char → Bool
| [], _ => true
| _ :: _, [] => false
| c :: cs, d :: ds => if c == d then charsLe cs ds else decide (c.toNat < d.toNat)

/-- Lexicographic order on strings. -/
def strLeB (a b : String) : Bool := charsLe a.toList b.toList

/-- sklearn LabelEncoder.fit (notebook lines 62-66): classes_ is the sorted
    list of distinct values of the column. -/
def leClasses (xs : List String) : List String :=
  sortLe strLeB xs.dedup

/-- sklearn LabelEncoder.transform of one value: its index among classes_,
    none when the value was never seen. -/
def leTransform (classes : List String) (x : String) : Option Nat :=
  match classes with
  | [] => none
  | c :: rest => if c == x then some 0 else (leTransform rest x).map (fun i => i + 1)

/-- Fitted sklearn TfidfVectorizer (external): transform of one cleaned
    string, flattened to a single row. -/
structure TfidfModel where
  transform : String → RVec

/-- Fitted StandardScaler statistics (notebook lines 139-140): per-column
    mean and spread. -/
structure ScalerState where
  mean : RVec
  scale : RVec

/-- StandardScaler.transform on one row: (x - mean) / spread, elementwise. -/
def scalerTransform (sc : ScalerState) (x : RVec) : RVec :=
  List.zipWith (fun d s => d / s) (List.zipWith (fun a mu => a - mu) x sc.mean) sc.scale

/-- The pickled stacking classifier (external): predicts one label from one
    feature row. -/
structure EscModel where
  predictRow : RVec → Int

/-- Module-level state of app.py after its load section. -/
structure ServingState where
  model : EscModel
  scaler : Option ScalerState
  w2v : Option W2VModel
  tfidf : Option TfidfModel

/-- app.py lines 247-275: only the model is unpickled; scaler, w2v_model and
    tfidf are each the literal expression joblib.load(...) if False else
    None, hence None. -/
def appState (m : EscModel) : ServingState :=
  { model := m, scaler := none, w2v := none, tfidf := none }

/-- Whether every preprocessing member of the artifact bundle is present in
    the loaded serving state. -/
def loadedBundleComplete (st : ServingState) : Bool :=
  st.scaler.isSome && st.w2v.isSome && st.tfidf.isSome

abbrev ScoreRequest := List (String × JVal)

/-- Python data.get(k, dflt) on the request dictionary. -/
def dataGet (data : ScoreRequest) (k : String) (dflt : JVal) : JVal :=
  ((data.find? (fun p => p.1 == k)).map (fun p => p.2)).getD dflt

/-- Feature assembly of app.py predict (lines 283-316) over serving state
    st: clean the description, score sentiment, take the w2v block (zeros of
    width 100 when w2v_model is None), the tfidf block (zeros of width 500
    when tfidf is None), read complaint_type and transaction_frequency with
    default 0, and concatenate
    [sentiment, complaint_type, transaction_frequency] ++ w2v ++ tfidf.
    A non-string complaint_description raises inside clean_text; a
    non-numeric complaint_type or transaction_frequency would make the later
    model.predict call fail, modelled here as an assembly error. -/
def servingFeatureVector (env : NlpEnv) (st : ServingState) (data : ScoreRequest) :
    Except String RVec :=
  match clean_text_serve env (dataGet data "complaint_description" (JVal.str "")) with
  | .error e => .error e
  | .ok cleaned =>
    match (dataGet data "complaint_type" (JVal.num 0)).toNum,
          (dataGet data "transaction_frequency" (JVal.num 0)).toNum with
    | some ct, some tf =>
      .ok ([env.sentimentOf (dataGet data "complaint_description" (JVal.str "")).pyStr, ct, tf]
        ++ (match st.w2v with
            | some mw => get_w2v_vector mw cleaned
            | none => List.replicate 100 0)
        ++ (match st.tfidf with
            | some t => TfidfModel.transform t cleaned
            | none => List.replicate 500 0))
    | _, _ => .error "non-numeric categorical field"

/-- The row handed to model.predict (app.py lines 318-320): the assembled
    vector, scaled only when the scaler object is loaded. -/
def servingModelInput (env : NlpEnv) (st : ServingState) (data : ScoreRequest) :
    Except String RVec :=
  (servingFeatureVector env st data).map (fun fv =>
    match st.scaler with
    | some sc => scalerTransform sc fv
    | none => fv)

/-- app.py predict end to end (line 323): the model prediction on the
    possibly scaled vector. -/
def servingPredict (env : NlpEnv) (st : ServingState) (data : ScoreRequest) :
    Except String Int :=
  (servingModelInput env st data).map st.model.predictRow

/-- One raw training row with the schema the notebook assumes (lines 53-59):
    the text description, two categorical columns, other numeric columns in
    their CSV order, and the target.  No sentiment_score column is present in
    the raw file, so the pandas assignments append cleaned_text and
    sentiment_score after the original columns. -/
structure TrainRecord where
  complaint_description : JVal
  complaint_type : String
  transaction_frequency : String
  numerics : RVec
  escalated : Int

/-- The row of the training design matrix X for one record, given the fitted
    artifacts (notebook lines 61-131): after label encoding, the
    sentiment_score assignment, the concat of w2v_df and tfidf_df and the
    column drops, the columns of X are
    [complaint_type, transaction_frequency, numerics..., sentiment_score,
     w2v_0..w2v_99, tfidf_0..tfidf_499].
    leTransform always finds a training-column value because the encoder was
    fit on that same column, so the getD 0 default is never taken there. -/
def trainFeatureRow (env : NlpEnv) (ctClasses tfClasses : List String)
    (w2v : W2VModel) (tfidfM : TfidfModel) (r : TrainRecord) : RVec :=
  let cleaned := clean_text env (JVal.str r.complaint_description.pyStr)
  [(((leTransform ctClasses r.complaint_type).getD 0 : Nat) : Rat),
   (((leTransform tfClasses r.transaction_frequency).getD 0 : Nat) : Rat)]
  ++ r.numerics
  ++ [env.sentimentOf r.complaint_description.pyStr]
  ++ get_w2v_vector w2v cleaned
  ++ TfidfModel.transform tfidfM cleaned

/-- A pandas column: numeric (missing as none) or object/text. -/
inductive Column where
| num (vals : List (Option Rat))
| obj (vals : List (Option String))
deriving DecidableEq

/-- Median of an already sorted list of present values, as pandas takes it:
    the middle element for odd length, the average of the two middle
    elements for even length, missing for an empty list. -/
def pdMedianSorted (xs : List Rat) : Option Rat :=
  if xs.length = 0 then none
  else if xs.length % 2 = 1 then some (xs.getD (xs.length / 2) 0)
  else some ((xs.getD (xs.length / 2 - 1) 0 + xs.getD (xs.length / 2) 0) / 2)

/-- pandas Series.median: the missing-skipping median of a numeric column. -/
def pdMedian (vs : List (Option Rat)) : Option Rat :=
  pdMedianSorted (sortLe (fun a b => decide (a ≤ b)) (vs.filterMap id))

/-- df.fillna(df.median()) on one column (notebook line 69): df.median()
    yields values only for numeric columns, so only numeric columns are
    filled; an object column is returned unchanged, and an all-missing
    numeric column stays as it is. -/
def fillColumn : Column → Column
| .num vs =>
  match pdMedian vs with
  | some m => .num (vs.map (fun v => some (v.getD m)))
  | none => .num vs
| .obj ws => .obj ws

/-- The whole-table fill of notebook line 69. -/
def fillnaMedian (cols : List Column) : List Column := cols.map fillColumn

/-- Whether a column still contains a missing cell. -/
def Column.hasMissing : Column → Bool
| .num vs => vs.any (fun v => v.isNone)
| .obj ws => ws.any (fun v => v.isNone)

/-- The single train_test_split of notebook line 143. -/
structure TTSplit where
  X_train : RMat
  y_train : BLabels
  X_test : RMat
  y_test : BLabels

/-- sklearn binary f1_score: 2TP / (2TP + FP + FN), and 0 when that
    denominator is 0. -/
def f1_score (yTrue yPred : BLabels) : Rat :=
  let pairs := yTrue.zip yPred
  let tp := (pairs.filter (fun p => p.1 == 1 && p.2 == 1)).length
  let fp := (pairs.filter (fun p => !(p.1 == 1) && p.2 == 1)).length
  let fn := (pairs.filter (fun p => p.1 == 1 && !(p.2 == 1))).length
  if 2 * tp + fp + fn = 0 then 0 else ((2 * tp : Nat) : Rat) / ((2 * tp + fp + fn : Nat) : Rat)

abbrev HParams := List (String × Rat)

/-- The Optuna objective (notebook lines 151-165): fit the candidate
    LightGBM (external, passed as lgbm) on the enclosing X_train/y_train and
    score F1 on the enclosing X_test/y_test of the single line-143 split. -/
def objective (lgbm : HParams → RMat → BLabels → RMat → BLabels)
    (s : TTSplit) (p : HParams) : Rat :=
  f1_score s.y_test (lgbm p s.X_train s.y_train s.X_test)

/-- One completed tuning trial: its number, candidate parameters, the
    held-out data it was scored on, and the recorded F1. -/
structure TrialRecord where
  number : Nat
  params : HParams
  heldoutX : RMat
  heldoutY : BLabels
  score : Rat

/-- study.optimize(objective, n_trials=30) (notebook lines 167-168): every
    trial evaluates objective against the same enclosing split s; the
    parameter proposals come from the external sampler. -/
def runStudy (lgbm : HParams → RMat → BLabels → RMat → BLabels)
    (s : TTSplit) (proposals : List HParams) : List TrialRecord :=
  proposals.enum.map (fun q => ⟨q.1, q.2, s.X_test, s.y_test, objective lgbm s q.2⟩)

/-- The trial budget of notebook line 168. -/
def n_trials : Nat := 30

/-- The data of the final evaluation (notebook lines 194-197):
    stack_model.predict(X_test) scored against y_test. -/
def finalEvalData (s : TTSplit) : RMat × BLabels := (s.X_test, s.y_test)

/-- Disjointness of two evaluation row sets. -/
def rowsDisjoint (A B : RMat) : Prop := ∀ r ∈ A, r ∉ B

/-- Modelled from the spec: a base or meta learner of the stacking ensemble
    of section 4.9.  The repository delegates the ensemble to
    sklearn.ensemble.StackingClassifier (notebook lines 182-188), whose code
    is not under src; a learner is a deterministic fit producing a
    predictor. -/
structure Learner where
  fit : RMat → BLabels → (RMat → BLabels)

/-- The error taxonomy of spec section 7 that the pipeline components can
    signal. -/
inductive PipelineError where
| PreconditionError
| InputError
| ShapeMismatchError
deriving DecidableEq

/-- Modelled from the spec: the fitted state of the stacking ensemble — the
    ordered base-learner identifiers captured at fit time, the
    full-data-trained base predictors in that order, and the meta-learner
    trained on out-of-fold predictions. -/
structure FittedStack where
  baseIds : List String
  basePredictors : List (String × (RMat → BLabels))
  meta : RMat → BLabels

/-- Modelled from the spec: the stacking ensemble state machine of section
    4.9, untrained (fittedState = none) or fitted. -/
structure StackingEnsemble where
  estimators : List (String × Learner)
  finalEstimator : Learner
  cv : Nat
  fittedState : Option FittedStack

/-- A freshly constructed, untrained ensemble, as notebook lines 182-186
    construct it from the ordered (name, learner) list. -/
def mkStacking (est : List (String × Learner)) (finEst : Learner) (k : Nat) :
    StackingEnsemble :=
  ⟨est, finEst, k, none⟩

/-- Size of one of k consecutive folds over n samples. -/
def chunkSize (n k : Nat) : Nat := (n + k - 1) / k

/-- The rows outside fold i under consecutive chunks of size c. -/
def dropFold {α : Type} (xs : List α) (c i : Nat) : List α :=
  (xs.enum.filter (fun p => !(p.1 / c == i))).map (fun p => p.2)

/-- Modelled from the spec: the out-of-fold prediction of one base learner
    for sample j — train on the k-1 folds not containing j, predict row j. -/
def oofPred (L : Learner) (X : RMat) (y : BLabels) (k j : Nat) : Int :=
  let c := chunkSize X.length k
  ((L.fit (dropFold X c (j / c)) (dropFold y c (j / c))) [X.getD j []]).headD 0

/-- Modelled from the spec: one base learner's out-of-fold prediction column
    over the whole training set. -/
def oofColumn (L : Learner) (X : RMat) (y : BLabels) (k : Nat) : BLabels :=
  (List.range X.length).map (oofPred L X y k)

/-- Modelled from the spec: the fit protocol of section 4.9 — accumulate
    out-of-fold base predictions, refit every base learner on the full data,
    train the meta-learner on the out-of-fold matrix, and capture the
    ordered base-learner identifiers. -/
def StackingEnsemble.fit (se : StackingEnsemble) (X : RMat) (y : BLabels) :
    StackingEnsemble :=
  let oofCols := se.estimators.map (fun e => oofColumn e.2 X y se.cv)
  let oofMat : RMat :=
    (List.range X.length).map (fun j => oofCols.map (fun col => ((col.getD j 0 : Int) : Rat)))
  let meta := se.finalEstimator.fit oofMat y
  let basePreds := se.estimators.map (fun e => (e.1, e.2.fit X y))
  { se with fittedState := some ⟨se.estimators.map (fun e => e.1), basePreds, meta⟩ }

/-- Modelled from the spec: the predict protocol of section 4.9 — a
    PreconditionError before fit; afterwards, run the full-data-trained base
    predictors in the captured order and feed their row vectors to the
    meta-learner. -/
def StackingEnsemble.predict (se : StackingEnsemble) (X : RMat) :
    Except PipelineError BLabels :=
  match se.fittedState with
  | none => .error .PreconditionError
  | some f =>
    let cols := f.basePredictors.map (fun bp => bp.2 X)
    .ok (f.meta ((List.range X.length).map
      (fun j => cols.map (fun col => ((col.getD j 0 : Int) : Rat)))))

/-- The ordered base-learner identifiers captured at fit time. -/
def StackingEnsemble.capturedIds (se : StackingEnsemble) : Option (List String) :=
  se.fittedState.map (fun f => f.baseIds)

/-- The ordered base-learner identifiers the predict protocol runs. -/
def StackingEnsemble.predictIds (se : StackingEnsemble) : Option (List String) :=
  se.fittedState.map (fun f => f.basePredictors.map (fun bp => bp.1))

/-- Concrete external resources for evaluating the pipelines: identity
    lemmatizer, no stopwords, neutral sentiment. -/
def demoEnv : NlpEnv := ⟨fun s => s, [], fun _ => 0⟩

/-- A concrete pickled classifier that predicts 1 on every row. -/
def demoModel : EscModel := ⟨fun _ => 1⟩

/-- A concrete well-formed scoring request. -/
def demoReq : ScoreRequest := [("complaint_description", JVal.str "refund delayed")]

/-- Concrete fitted label-encoder classes for the two categorical columns. -/
def demoCtClasses : List String := leClasses ["billing", "fraud"]

def demoTfClasses : List String := leClasses ["daily", "weekly"]

/-- A concrete fitted lexical vectorizer of width 500. -/
def demoTfidf : TfidfModel := ⟨fun _ => List.replicate 500 0⟩

/-- A concrete training record with one extra numeric column
    (resolution_time_days = 3). -/
def demoRecord : TrainRecord := ⟨JVal.str "late fee", "fraud", "daily", [3], 0⟩

/-- The scoring request for the same record, with the categorical fields
    already encoded exactly as training encoded them. -/
def demoRequest : ScoreRequest :=
  [("complaint_description", JVal.str "late fee"),
   ("complaint_type", JVal.num 1),
   ("transaction_frequency", JVal.num 0)]

/-- A concrete fitted embedding table over the demo vocabulary. -/
def demoW2v : W2VModel :=
  ⟨[("late", List.replicate 100 2), ("fee", List.replicate 100 4)]⟩

/-- A concrete external LightGBM stand-in: predicts 1 on every row. -/
def demoLgbm : HParams → RMat → BLabels → RMat → BLabels :=
  fun _ _ _ xt => xt.map (fun _ => 1)

/-- A concrete split: two training rows and one held-out row. -/
def demoSplit : TTSplit := ⟨[[0], [1]], [0, 1], [[2]], [1]⟩

/-- Thirty trial proposals, as n_trials = 30 produces. -/
def demoProposals : List HParams := List.replicate 30 []

/-- A concrete request whose complaint_type is already encoded as 1 and
    transaction_frequency as 2. -/
def demoRequest9 : ScoreRequest :=
  [("complaint_description", JVal.str "late fee"),
   ("complaint_type", JVal.num 1),
   ("transaction_frequency", JVal.num 2)]

/-- A concrete persisted scaler whose statistics are not the identity. -/
def demoScaler : ScalerState := ⟨[1], [2]⟩

theorem insertLe_length {α : Type} (le : α → α → Bool) (x : α) :
    ∀ xs : List α, (insertLe le x xs).length = xs.length + 1 := by
  intro xs
  induction xs with
  | nil => rfl
  | cons y ys ih =>
    simp only [insertLe]
    split
    · simp
    · simp [ih]

theorem sortLe_length {α : Type} (le : α → α → Bool) :
    ∀ xs : List α, (sortLe le xs).length = xs.length := by
  intro xs
  induction xs with
  | nil => rfl
  | cons x xs ih => simp [sortLe, insertLe_length, ih]

theorem sortLe_eq_nil {α : Type} (le : α → α → Bool) (xs : List α)
    (h : sortLe le xs = []) : xs = [] := by
  have hl := sortLe_length le xs
  rw [h] at hl
  exact List.length_eq_zero.mp hl.symm

theorem getD_zipWith_add :
    ∀ (a b : RVec) (i : Nat), i < a.length → i < b.length →
      (List.zipWith (fun x y => x + y) a b).getD i 0 = a.getD i 0 + b.getD i 0 := by
  intro a
  induction a with
  | nil => intro b i h _; simp at h
  | cons x xs ih =>
    intro b i h1 h2
    cases b with
    | nil => simp at h2
    | cons y ys =>
      cases i with
      | zero => simp
      | succ j =>
        simp only [List.zipWith_cons_cons, List.getD_cons_succ]
        exact ih ys j (Nat.lt_of_succ_lt_succ h1) (Nat.lt_of_succ_lt_succ h2)

theorem npSumAxis0_length (n : Nat) :
    ∀ vs : List RVec, (∀ v ∈ vs, v.length = n) → vs ≠ [] →
      (npSumAxis0 vs).length = n := by
  intro vs
  induction vs with
  | nil => intro _ h; exact absurd rfl h
  | cons v ws ih =>
    intro hwf _
    cases ws with
    | nil => exact hwf v (List.mem_cons_self v [])
    | cons w ws' =>
      have h1 : v.length = n := hwf v (List.mem_cons_self _ _)
      have h2 : (npSumAxis0 (w :: ws')).length = n := by
        refine ih ?_ (by simp)
        intro u hu
        exact hwf u (List.mem_cons_of_mem _ hu)
      simp [npSumAxis0, List.length_zipWith, h1, h2]

theorem npSumAxis0_getD (n : Nat) :
    ∀ vs : List RVec, (∀ v ∈ vs, v.length = n) → ∀ i, i < n →
      (npSumAxis0 vs).getD i 0 = (vs.map (fun v => v.getD i 0)).sum := by
  intro vs
  induction vs with
  | nil => intro _ i _; simp [npSumAxis0]
  | cons v ws ih =>
    intro hwf i hi
    cases ws with
    | nil => simp [npSumAxis0]
    | cons w ws' =>
      have h1 : v.length = n := hwf v (List.mem_cons_self _ _)
      have hrest : ∀ u ∈ w :: ws', u.length = n := by
        intro u hu
        exact hwf u (List.mem_cons_of_mem _ hu)
      have h2 : (npSumAxis0 (w :: ws')).length = n :=
        npSumAxis0_length n (w :: ws') hrest (by simp)
      have hz := getD_zipWith_add v (npSumAxis0 (w :: ws')) i
        (by rw [h1]; exact hi) (by rw [h2]; exact hi)
      calc (npSumAxis0 (v :: w :: ws')).getD i 0
      _ = v.getD i 0 + (npSumAxis0 (w :: ws')).getD i 0 := hz
      _ = v.getD i 0 + ((w :: ws').map (fun u => u.getD i 0)).sum := by
        rw [ih hrest i hi]
      _ = ((v :: w :: ws').map (fun u => u.getD i 0)).sum := by simp

theorem getD_map_div (c : Rat) :
    ∀ (l : RVec) (i : Nat), (l.map (fun x => x / c)).getD i 0 = l.getD i 0 / c := by
  intro l
  induction l with
  | nil => intro i; simp
  | cons x xs ih =>
    intro i
    cases i with
    | zero => simp
    | succ j =>
      simp only [List.map_cons, List.getD_cons_succ]
      exact ih j

theorem wvLookup_length (m : W2VModel) (hwf : ∀ p ∈ m.wv, p.2.length = 100)
    (w : String) (v : RVec) (h : wvLookup m w = some v) : v.length = 100 := by
  unfold wvLookup at h
  cases hf : m.wv.find? (fun p => p.1 == w) with
  | none => rw [hf] at h; simp at h
  | some p =>
    rw [hf] at h
    simp at h
    rw [← h]
    exact hwf p (List.mem_of_find?_eq_some hf)

theorem get_w2v_vector_length (m : W2VModel) (hwf : ∀ p ∈ m.wv, p.2.length = 100)
    (text : String) : (get_w2v_vector m text).length = 100 := by
  unfold get_w2v_vector
  set vs := (pySplit text).filterMap (wvLookup m) with hvs
  have hmem : ∀ v ∈ vs, v.length = 100 := by
    intro v hv
    rw [hvs] at hv
    rcases List.mem_filterMap.mp hv with ⟨w, _, hw⟩
    exact wvLookup_length m hwf w v hw
  by_cases h : vs.isEmpty
  · simp [h]
  · have hne : vs ≠ [] := by
      intro h0; rw [h0] at h; simp at h
    simp only [h, if_false, Bool.false_eq_true]
    unfold npMeanAxis0
    rw [List.length_map]
    exact npSumAxis0_length 100 vs hmem hne

set_option maxRecDepth 100000 in
/-- C1: the training-time and serving-time feature constructions are not the
    same function of the raw record, even for the same fitted artifacts: on
    a record with one extra numeric column, the training row has 604 entries
    and starts with the complaint_type code, while the serving row has 603
    entries and starts with the sentiment score, with zero blocks standing
    in for the fitted embedding and lexical features. -/
theorem C1_train_serve_divergence :
    (trainFeatureRow demoEnv demoCtClasses demoTfClasses demoW2v demoTfidf demoRecord).length = 604
    ∧ (trainFeatureRow demoEnv demoCtClasses demoTfClasses demoW2v demoTfidf demoRecord).headD 0 = 1
    ∧ (servingFeatureVector demoEnv (appState demoModel) demoRequest).map List.length
        = Except.ok 603
    ∧ (servingFeatureVector demoEnv (appState demoModel) demoRequest).map (fun fv => fv.headD 0)
        = Except.ok 0 := by
  have hw : ∀ p ∈ demoW2v.wv, p.2.length = 100 := of_decide_eq_true rfl
  refine ⟨?_, ?_, ?_, ?_⟩
  · simp [trainFeatureRow, demoRecord, demoTfidf,
      get_w2v_vector_length demoW2v hw]
  · rfl
  · rfl
  · rfl

/-- C2: at serving time the standardization step is skipped outright — the
    scaler slot of the loaded app state is None, so the model input is the
    raw assembled vector for every request, while applying the persisted
    statistics would change it (for mean 1 and spread 2, row [5] scales to
    [2]). -/
theorem C2_scaler_never_applied :
    (∀ (env : NlpEnv) (m : EscModel) (data : ScoreRequest),
        servingModelInput env (appState m) data = servingFeatureVector env (appState m) data)
    ∧ scalerTransform demoScaler [5] = [2] := by
  constructor
  · intro env m data
    unfold servingModelInput
    cases servingFeatureVector env (appState m) data <;> rfl
  · norm_num [scalerTransform, demoScaler]

/-- C3: the serving process loads no complete artifact bundle — the lexical
    vocabulary (and the scaler and embedding table) are absent from the
    loaded state — yet a prediction is still served instead of the load
    failing. -/
theorem C3_partial_bundle_serves :
    loadedBundleComplete (appState demoModel) = false
    ∧ (appState demoModel).tfidf = none
    ∧ servingPredict demoEnv (appState demoModel) demoReq = Except.ok 1 := by
  exact ⟨rfl, rfl, rfl⟩

/-- C6 counterexample: on the serving path the normalizer propagates an
    AttributeError for the non-string input 5 instead of returning the
    empty token sequence. -/
theorem C6_counterexample :
    clean_text_serve demoEnv (JVal.num 5) = Except.error "AttributeError" := rfl

/-- C6 amended: the training-path normalizer never raises — on the
    stringified column value it returns the cleaned text, and any internal
    failure of the body yields the empty string — while the serving-path
    normalizer succeeds exactly on string inputs and propagates the error on
    any non-string input. -/
theorem C6_normalizer_totality (env : NlpEnv) (v : JVal) :
    clean_text env (JVal.str v.pyStr) = clean_text_core env v.pyStr
    ∧ ((clean_text_serve env v).isOk = true ↔ v.isStr = true)
    ∧ (∀ e, cleanTextBody env v = Except.error e → clean_text env v = "") := by
  refine ⟨rfl, ?_, ?_⟩
  · cases v <;> simp [clean_text_serve, cleanTextBody, JVal.isStr, Except.isOk, Except.toBool]
  · intro e h
    simp [clean_text, h]

theorem C6_normalizer_totality_witness :
    (clean_text_serve demoEnv (JVal.num 5)).isOk = true ↔ (JVal.num 5).isStr = true :=
  (C6_normalizer_totality demoEnv (JVal.num 5)).2.1

set_option maxRecDepth 100000 in
/-- C5 counterexample: for a request with no complaint_type field the served
    vector carries 0 in the complaint_type slot, yet 0 is exactly the code
    the training encoder assigned to the seen category "billing" — the
    default is not a reserved code distinct from every seen code, and no
    encoding is applied at serving time at all. -/
theorem C5_counterexample :
    servingFeatureVector demoEnv (appState demoModel)
        [("complaint_description", JVal.str "")]
      = Except.ok ([0, 0, 0] ++ List.replicate 100 0 ++ List.replicate 500 0)
    ∧ leTransform (leClasses ["fraud", "billing"]) "billing" = some 0 :=
  ⟨rfl, rfl⟩

/-- C5 amended: at serving time no label encoding is applied — a missing
    complaint_type or transaction_frequency simply defaults to the numeric
    value 0 via data.get, and for every nonempty fitted category set 0
    coincides with the code of some seen category, so the default is not a
    reserved unknown code. -/
theorem C5_missing_category_default (data : ScoreRequest) (k : String)
    (h : data.find? (fun p => p.1 == k) = none) :
    dataGet data k (JVal.num 0) = JVal.num 0
    ∧ (∀ cats : List String, cats ≠ [] →
        ∃ c, c ∈ leClasses cats ∧ leTransform (leClasses cats) c = some 0) := by
  constructor
  · simp [dataGet, h]
  · intro cats hc
    have hn : leClasses cats ≠ [] := by
      intro h0
      exact hc (by simpa [List.dedup_eq_nil] using sortLe_eq_nil strLeB cats.dedup h0)
    obtain ⟨c, rest, hcr⟩ := List.exists_cons_of_ne_nil hn
    refine ⟨c, ?_, ?_⟩
    · rw [hcr]
      exact List.mem_cons_self c rest
    · rw [hcr]
      simp [leTransform]

theorem C5_missing_category_default_witness :
    dataGet [] "complaint_type" (JVal.num 0) = JVal.num 0
    ∧ ∃ c, c ∈ leClasses ["fraud", "billing"]
        ∧ leTransform (leClasses ["fraud", "billing"]) c = some 0 :=
  ⟨(C5_missing_category_default [] "complaint_type" rfl).1,
   (C5_missing_category_default [] "complaint_type" rfl).2 ["fraud", "billing"]
     (of_decide_eq_true rfl)⟩

/-- C7: for every fitted embedding table of width 100 and every token
    sequence, the averaging step always returns a vector of width 100; it
    returns the zero vector exactly when no token of the sequence is in the
    table (unknown tokens are skipped by the lookup, not raised on); and on
    the found vectors it is the arithmetic mean — each output entry times
    the number of found vectors equals the sum of their entries. -/
theorem C7_embedding_average (m : W2VModel)
    (hwf : ∀ p ∈ m.wv, p.2.length = 100) (text : String) :
    (get_w2v_vector m text).length = 100
    ∧ ((pySplit text).filterMap (wvLookup m) = [] →
        get_w2v_vector m text = List.replicate 100 0)
    ∧ (∀ i, i < 100 →
        (get_w2v_vector m text).getD i 0
            * (((pySplit text).filterMap (wvLookup m)).length : Rat)
          = (((pySplit text).filterMap (wvLookup m)).map (fun v => v.getD i 0)).sum) := by
  refine ⟨get_w2v_vector_length m hwf text, ?_, ?_⟩
  · intro h
    unfold get_w2v_vector
    simp [h]
  · intro i hi
    by_cases h : (pySplit text).filterMap (wvLookup m) = []
    · rw [h]
      simp
    · have hmem : ∀ v ∈ (pySplit text).filterMap (wvLookup m), v.length = 100 := by
        intro v hv
        rcases List.mem_filterMap.mp hv with ⟨w, _, hw⟩
        exact wvLookup_length m hwf w v hw
      have hg : get_w2v_vector m text
          = npMeanAxis0 ((pySplit text).filterMap (wvLookup m)) := by
        unfold get_w2v_vector
        simp [List.isEmpty_iff, h]
      rw [hg]
      unfold npMeanAxis0
      rw [getD_map_div]
      have hlen : (((pySplit text).filterMap (wvLookup m)).length : Rat) ≠ 0 := by
        simpa using h
      rw [div_mul_cancel₀ _ hlen]
      exact npSumAxis0_getD 100 _ hmem i hi

theorem C7_embedding_average_witness :
    (get_w2v_vector demoW2v "late fee").length = 100 :=
  (C7_embedding_average demoW2v (of_decide_eq_true rfl) "late fee").1

set_option maxRecDepth 100000 in
/-- C9 counterexample: a scoring request whose complaint_description is the
    JSON number 5 produces no feature vector at all — the request errors
    inside clean_text — so not every request yields a 603-entry vector. -/
theorem C9_counterexample :
    ((servingFeatureVector demoEnv (appState demoModel)
        [("complaint_description", JVal.num 5)]).isOk) = false := rfl

set_option maxRecDepth 100000 in
/-- C9 amended: for every request whose complaint_description reads as a
    string and whose complaint_type and transaction_frequency read as
    numbers (all three defaulted when missing), the served vector is exactly
    [sentiment, complaint_type, transaction_frequency] followed by the
    100-wide zero embedding block and the 500-wide zero lexical block of the
    shipped serving state — 603 entries, with no other request field
    entering; a request with a non-string description errors instead. -/
theorem C9_serving_vector_layout (env : NlpEnv) (m : EscModel) (data : ScoreRequest)
    (hdesc : (dataGet data "complaint_description" (JVal.str "")).isStr = true)
    (hct : ((dataGet data "complaint_type" (JVal.num 0)).toNum).isSome = true)
    (htf : ((dataGet data "transaction_frequency" (JVal.num 0)).toNum).isSome = true) :
    servingFeatureVector env (appState m) data =
      Except.ok ([env.sentimentOf (dataGet data "complaint_description" (JVal.str "")).pyStr,
                  ((dataGet data "complaint_type" (JVal.num 0)).toNum).getD 0,
                  ((dataGet data "transaction_frequency" (JVal.num 0)).toNum).getD 0]
        ++ List.replicate 100 0 ++ List.replicate 500 0)
    ∧ (∀ fv : RVec, servingFeatureVector env (appState m) data = Except.ok fv →
        fv.length = 603) := by
  obtain ⟨s, hs⟩ : ∃ s, dataGet data "complaint_description" (JVal.str "") = JVal.str s := by
    cases hv : dataGet data "complaint_description" (JVal.str "") <;>
      simp_all [JVal.isStr]
  obtain ⟨ct, hctv⟩ := Option.isSome_iff_exists.mp hct
  obtain ⟨tf, htfv⟩ := Option.isSome_iff_exists.mp htf
  have hmain : servingFeatureVector env (appState m) data =
      Except.ok ([env.sentimentOf (dataGet data "complaint_description" (JVal.str "")).pyStr,
                  ((dataGet data "complaint_type" (JVal.num 0)).toNum).getD 0,
                  ((dataGet data "transaction_frequency" (JVal.num 0)).toNum).getD 0]
        ++ List.replicate 100 0 ++ List.replicate 500 0) := by
    unfold servingFeatureVector
    rw [hs, hctv, htfv]
    simp [clean_text_serve, cleanTextBody, appState]
  refine ⟨hmain, ?_⟩
  intro fv hfv
  rw [hmain] at hfv
  have hfv' := Except.ok.inj hfv
  rw [← hfv']
  simp

set_option maxRecDepth 100000 in
theorem C9_serving_vector_layout_witness :
    servingFeatureVector demoEnv (appState demoModel) demoRequest9 =
      Except.ok ([0, 1, 2] ++ List.replicate 100 0 ++ List.replicate 500 0) := by
  have h := C9_serving_vector_layout demoEnv demoModel demoRequest9 rfl rfl rfl
  rw [h.1]
  rfl

set_option maxRecDepth 100000 in
/-- C4 counterexample: in a concrete run, the held-out rows every tuning
    trial scores F1 on are exactly the rows of the final evaluation set —
    the two sets are identical and share the row [2], so they are not
    disjoint. -/
theorem C4_counterexample :
    (runStudy demoLgbm demoSplit demoProposals).map TrialRecord.heldoutX
        = List.replicate 30 (finalEvalData demoSplit).1
    ∧ [2] ∈ (finalEvalData demoSplit).1 :=
  ⟨rfl, of_decide_eq_true rfl⟩

/-- C4 amended: all 30 tuning trials score F1 on the one fixed held-out
    split produced by the single train_test_split call — no trial resamples
    — but that same held-out split, not a disjoint set, is also the data of
    the final evaluation metrics. -/
theorem C4_single_split_reused (lgbm : HParams → RMat → BLabels → RMat → BLabels)
    (s : TTSplit) (proposals : List HParams) (h : proposals.length = n_trials) :
    (runStudy lgbm s proposals).length = n_trials
    ∧ (∀ r ∈ runStudy lgbm s proposals,
        r.heldoutX = s.X_test ∧ r.heldoutY = s.y_test
        ∧ r.score = f1_score s.y_test (lgbm r.params s.X_train s.y_train s.X_test))
    ∧ finalEvalData s = (s.X_test, s.y_test) := by
  refine ⟨?_, ?_, rfl⟩
  · simp [runStudy, h]
  · intro r hr
    unfold runStudy at hr
    rcases List.mem_map.mp hr with ⟨q, _, hfq⟩
    rw [← hfq]
    exact ⟨rfl, rfl, rfl⟩

theorem C4_single_split_reused_witness :
    (runStudy demoLgbm demoSplit demoProposals).length = n_trials :=
  (C4_single_split_reused demoLgbm demoSplit demoProposals rfl).1

/-- C10 counterexample: the median fill leaves the missing value of a text
    (object) column in place — df.median() yields nothing for it — so not
    every missing value of the table is replaced. -/
theorem C10_counterexample :
    fillnaMedian [Column.obj [some "slow refund", none]]
        = [Column.obj [some "slow refund", none]]
    ∧ Column.hasMissing (Column.obj [some "slow refund", none]) = true :=
  ⟨rfl, rfl⟩

/-- C10 amended: the training fill step replaces every missing value of a
    numeric column by that column's median over its present values — after
    it, a numeric column with at least one present value has no missing cell
    — while object (text) columns pass through unchanged, their missing
    values unfilled; the fill runs after the label encoders are fit, not
    before all fitting. -/
theorem C10_median_fill (vs : List (Option Rat))
    (h : vs.any (fun v => v.isSome) = true) :
    (∃ m, pdMedian vs = some m
        ∧ fillColumn (Column.num vs) = Column.num (vs.map (fun v => some (v.getD m))))
    ∧ Column.hasMissing (fillColumn (Column.num vs)) = false
    ∧ (∀ ws : List (Option String), fillColumn (Column.obj ws) = Column.obj ws) := by
  have hne : vs.filterMap id ≠ [] := by
    rcases List.any_eq_true.mp h with ⟨v, hv, hsome⟩
    rcases Option.isSome_iff_exists.mp hsome with ⟨a, rfl⟩
    intro h0
    have hmem : a ∈ vs.filterMap id := List.mem_filterMap.mpr ⟨some a, hv, rfl⟩
    rw [h0] at hmem
    simp at hmem
  have hlen : (sortLe (fun a b => decide (a ≤ b)) (vs.filterMap id)).length ≠ 0 := by
    rw [sortLe_length]
    intro h0
    exact hne (List.length_eq_zero.mp h0)
  obtain ⟨m, hm⟩ : ∃ m, pdMedian vs = some m := by
    unfold pdMedian pdMedianSorted
    rw [if_neg hlen]
    split
    · exact ⟨_, rfl⟩
    · exact ⟨_, rfl⟩
  refine ⟨⟨m, hm, ?_⟩, ?_, ?_⟩
  · simp [fillColumn, hm]
  · simp [fillColumn, hm, Column.hasMissing, List.any_map, Function.comp]
  · intro ws
    rfl

theorem C10_median_fill_witness :
    Column.hasMissing (fillColumn (Column.num [some 3, none])) = false
    ∧ fillColumn (Column.obj [some "x"]) = Column.obj [some "x"] :=
  ⟨(C10_median_fill [some 3, none] rfl).2.1,
   (C10_median_fill [some 3, none] rfl).2.2 [some "x"]⟩

/-- C8: predict on an ensemble whose fit has not completed is a
    PreconditionError; after fit, the captured ordered base-learner
    identifiers are exactly the estimator names in order, predict runs its
    base predictors in that same captured order, and predict succeeds. -/
theorem C8_state_machine (est : List (String × Learner)) (finEst : Learner)
    (k : Nat) (X Xfit : RMat) (y : BLabels) :
    (mkStacking est finEst k).predict X = Except.error PipelineError.PreconditionError
    ∧ ((mkStacking est finEst k).fit Xfit y).capturedIds = some (est.map Prod.fst)
    ∧ ((mkStacking est finEst k).fit Xfit y).predictIds
        = ((mkStacking est finEst k).fit Xfit y).capturedIds
    ∧ (((mkStacking est finEst k).fit Xfit y).predict X).isOk = true := by
  refine ⟨rfl, rfl, ?_, rfl⟩
  simp [StackingEnsemble.fit, StackingEnsemble.predictIds, StackingEnsemble.capturedIds,
    mkStacking, List.map_map, Function.comp]
